import Mathlib

/-!
Verification development for the VNDK classification and link-type checking
core of a native build system (`cc/vndk.go`).

The embedding models:
* the per-module VNDK property block and its derived predicates
  (`isVndk`, `isVndkSp`, `typeName`),
* the link-type checker `vndkCheckLinkType`, returning the list of
  diagnostics it reports for one dependency edge, and
* the registry-building mutator `vndkMutator`, as an explicit state
  transformer over the four global name inventories; the nil-pointer
  dereference that the source performs on a module whose `vndkdep`
  pointer is nil is modelled by returning `none`.
-/

namespace cc

/-- Embeds the nil-safe boolean pointer accessor `Bool(p *bool)` used by the
source (declared outside this file): `nil` reads as `false`. -/
def pBool (p : Option Bool) : Bool := p.getD false

/-- The anonymous `Vndk` struct inside `VndkProperties`: the two declared
VNDK membership flags, each a `*bool` (tri-state). -/
structure VndkInner where
  Enabled : Option Bool
  Support_system_process : Option Bool
deriving DecidableEq, Repr

/-- Embeds `VndkProperties` from the source. -/
structure VndkProperties where
  Vndk : VndkInner
deriving DecidableEq, Repr

/-- The `vndkdep` struct: a module's VNDK classification view. -/
structure Vndkdep where
  Properties : VndkProperties
deriving DecidableEq, Repr

/-- Embeds `vndkdep.isVndk()`: `Bool(vndk.Properties.Vndk.Enabled)`. -/
def Vndkdep.isVndk (vndk : Vndkdep) : Bool :=
  pBool vndk.Properties.Vndk.Enabled

/-- Embeds `vndkdep.isVndkSp()`: `Bool(vndk.Properties.Vndk.Support_system_process)`. -/
def Vndkdep.isVndkSp (vndk : Vndkdep) : Bool :=
  pBool vndk.Properties.Vndk.Support_system_process

/-- Embeds `vndkdep.typeName()`. -/
def Vndkdep.typeName (vndk : Vndkdep) : String :=
  if !vndk.isVndk then "native:vendor"
  else if !vndk.isVndkSp then "native:vendor:vndk"
  else "native:vendor:vndksp"

/-- Modelled from the spec: the closed variant of linker decorator types the
checker and mutator dispatch over by Go dynamic-type assertion.  The decorator
types themselves (`libraryDecorator`, `prebuiltLibraryLinker`,
`llndkStubDecorator`, and the remaining non-library linkers) are declared
outside this file; the spec models them as the closed enum
`{None, Shared, Static, PrebuiltShared, PrebuiltStatic, LlndkStub}` with the
shared/static distinction carried by the decorator's `shared()` accessor.
`llndkStub` carries the stub decorator's own plain-bool `Vendor_available`
property. `other` stands for the non-library linker kinds (objects,
binaries), which expose no library interface. -/
inductive LinkerKind where
  | library (shared : Bool)
  | prebuiltLibrary (shared : Bool)
  | llndkStub (vendor_available : Bool)
  | other
deriving DecidableEq, Repr

/-- Modelled from the spec: which linker decorators satisfy the Go interface
assertion `toM.linker.(libraryInterface)` — the shared/static library
decorators, plain and prebuilt ("`to` exposes a library interface (shared or
static)").  The LL-NDK stub case never reaches this assertion in the source
(it is tested first in the same if/else chain), so its value here is
irrelevant to the checker. -/
def LinkerKind.implsLibraryInterface : LinkerKind → Bool
  | .library _ => true
  | .prebuiltLibrary _ => true
  | _ => false

/-- Holds exactly for a linker that is a shared library, plain or prebuilt:
the condition `(is_lib && lib.shared()) || (is_prebuilt_lib &&
prebuilt_lib.shared())` of the mutator. -/
def LinkerKind.isAnySharedLibrary : LinkerKind → Bool
  | .library sh => sh
  | .prebuiltLibrary sh => sh
  | _ => false

/-- The module's `VendorProperties` block: the tri-state `*bool`
`Vendor_available`. -/
structure VendorProperties where
  Vendor_available : Option Bool
deriving DecidableEq, Repr

/-- The slice of the module's base `Properties` the checker reads. -/
structure BaseProperties where
  UseVndk : Bool
deriving DecidableEq, Repr

/-- The slice of `Module` that `vndkCheckLinkType` and `vndkMutator` read.
`linker = none` embeds a nil `linker` field; `vndkdep = none` embeds a nil
`vndkdep` pointer (the source tests `toM.vndkdep == nil`). `name` is the
value of `m.Name()`. -/
structure Module where
  name : String
  linker : Option LinkerKind
  VendorProperties : VendorProperties
  Properties : BaseProperties
  vndkdep : Option Vndkdep
deriving DecidableEq, Repr

/-- One diagnostic reported through `ctx.ModuleErrorf`, by message shape:
the vendor-availability violation of the first stage, the
no-vendor-available-variant report, and the link-type (tier) violation. -/
inductive Diagnostic where
  | vendorAvailableViolation (toName : String)
  | notVendorAvailableLib (fromType toName : String)
  | linkTypeViolation (fromType toName toType : String)
deriving DecidableEq, Repr

/-- Holds exactly on the first-stage vendor-availability diagnostic. -/
def Diagnostic.isVendorAvailableViolation : Diagnostic → Bool
  | .vendorAvailableViolation _ => true
  | _ => false

/-- Embeds `vndkdep.vndkCheckLinkType(ctx, to)`: the list of diagnostics reported
for the edge, in report order.  Mirrors the source: nil linker returns
early; the vendor-only guard runs for non-VNDK `from` (LL-NDK stub with
`Vendor_available == false`, else a library-interface dependency whose
`Vendor_available` pointer is non-nil and false); only a plain
`libraryDecorator` marked shared passes to the variant-existence and tier
checks; a nil `toM.vndkdep` passes the tier check silently. -/
def Vndkdep.vndkCheckLinkType (vndk : Vndkdep) (toM : Module) : List Diagnostic :=
  match toM.linker with
  | none => []
  | some lk =>
    let stage1 : List Diagnostic :=
      if !vndk.isVndk then
        let violation : Bool :=
          match lk with
          | .llndkStub va => !va
          | l => l.implsLibraryInterface
                 && toM.VendorProperties.Vendor_available.isSome
                 && !pBool toM.VendorProperties.Vendor_available
        if violation then [.vendorAvailableViolation toM.name] else []
      else []
    match lk with
    | .library true =>
      stage1 ++
        (if !toM.Properties.UseVndk then
          [.notVendorAvailableLib vndk.typeName toM.name]
        else
          match toM.vndkdep with
          | none => []
          | some tod =>
            if (vndk.isVndk && !tod.isVndk) || (vndk.isVndkSp && !tod.isVndkSp) then
              [.linkTypeViolation vndk.typeName toM.name tod.typeName]
            else [])
    | _ => stage1

/-- Modelled from the spec: the fixed kind-suffix stripped from an LL-NDK
stub module's name to obtain the canonical library name (the constant
`llndkLibrarySuffix` is declared outside this file). -/
def llndkLibrarySuffix : String := ".llndk"

/-- Embeds `strings.TrimPrefix`: drop `pre` from the front of `s` when
present, otherwise return `s` unchanged (stated over the character
sequence of the string). -/
def trimPre (s pre : String) : String :=
  if pre.data.isPrefixOf s.data then ⟨s.data.drop pre.data.length⟩ else s

/-- Embeds `strings.TrimSuffix`: drop `suf` from the end of `s` when
present, otherwise return `s` unchanged (stated over the character
sequence of the string). -/
def trimSuf (s suf : String) : String :=
  if suf.data.isSuffixOf s.data then ⟨s.data.take (s.data.length - suf.data.length)⟩ else s

/-- Modelled from the spec: the `inList` helper (declared outside this
file) — membership of a name in a name inventory. -/
def inList (s : String) (l : List String) : Bool :=
  decide (s ∈ l)

/-- One guarded insertion as the mutator performs it: if the name is absent,
append it and re-sort the inventory (`sort.Strings`). -/
def insertSorted (n : String) (l : List String) : List String :=
  if inList n l then l else List.insertionSort (· ≤ ·) (l ++ [n])

/-- The four process-wide name inventories. -/
structure VndkRegistries where
  vndkCoreLibraries : List String
  vndkSpLibraries : List String
  llndkLibraries : List String
  vndkPrivateLibraries : List String
deriving DecidableEq, Repr

/-- The registries at the start of a traversal pass. -/
def emptyRegistries : VndkRegistries := ⟨[], [], [], []⟩

/-- Embeds `vndkMutator` for one visited `*Module`, as a state transformer on the
registries.  `none` embeds the Go nil-pointer dereference that occurs when a
shared library module's `vndkdep` pointer is nil at `m.vndkdep.isVndk()`;
every other input returns `some` of the updated registries. -/
def vndkMutator (m : Module) (s : VndkRegistries) : Option VndkRegistries :=
  match m.linker with
  | some (.llndkStub vendor_available) =>
    let name := trimSuf m.name llndkLibrarySuffix
    let s := { s with llndkLibraries := insertSorted name s.llndkLibraries }
    some (if !vendor_available then
      { s with vndkPrivateLibraries := insertSorted name s.vndkPrivateLibraries }
    else s)
  | some lk =>
    if lk.isAnySharedLibrary then
      let name := trimPre m.name "prebuilt_"
      match m.vndkdep with
      | none => none
      | some dep =>
        if dep.isVndk then
          let s :=
            if dep.isVndkSp then
              { s with vndkSpLibraries := insertSorted name s.vndkSpLibraries }
            else
              { s with vndkCoreLibraries := insertSorted name s.vndkCoreLibraries }
          some (if !pBool m.VendorProperties.Vendor_available then
            { s with vndkPrivateLibraries := insertSorted name s.vndkPrivateLibraries }
          else s)
        else some s
    else some s
  | none => some s

/-- A full traversal pass: visit the modules in list order, threading the
registries; a visit that faults aborts the pass. -/
def runVisits : List Module → VndkRegistries → Option VndkRegistries
  | [], s => some s
  | m :: rest, s =>
    match vndkMutator m s with
    | none => none
    | some s' => runVisits rest s'

/-! ### Derived per-module classification used to analyse the mutator -/

/-- The module's visit dereferences a nil `vndkdep` pointer: it is a shared
library (plain or prebuilt) carrying no classification view. -/
def visitFaults (m : Module) : Bool :=
  (match m.linker with
   | some lk => lk.isAnySharedLibrary
   | none => false)
  && m.vndkdep.isNone

/-- The module is an LL-NDK stub. -/
def isLlndk (m : Module) : Bool :=
  match m.linker with
  | some (.llndkStub _) => true
  | _ => false

/-- The module contributes a name to `vndkCore` or `vndkSp`: a shared
library (plain or prebuilt) whose classification view says VNDK. -/
def contributes (m : Module) : Bool :=
  (match m.linker with
   | some lk => lk.isAnySharedLibrary
   | none => false)
  && (match m.vndkdep with
      | some d => d.isVndk
      | none => false)

/-- The SP flag of the module's classification view (false when absent). -/
def spClass (m : Module) : Bool :=
  match m.vndkdep with
  | some d => d.isVndkSp
  | none => false

/-- The canonical library name the mutator records for the module. -/
def canonicalName (m : Module) : String :=
  match m.linker with
  | some (.llndkStub _) => trimSuf m.name llndkLibrarySuffix
  | _ => trimPre m.name "prebuilt_"

/-- The module inserts its canonical name into `vndkCoreLibraries`. -/
def effCore (m : Module) : Bool := contributes m && !spClass m

/-- The module inserts its canonical name into `vndkSpLibraries`. -/
def effSp (m : Module) : Bool := contributes m && spClass m

/-- The module inserts its canonical name into `vndkPrivateLibraries`. -/
def effPriv (m : Module) : Bool :=
  match m.linker with
  | some (.llndkStub va) => !va
  | _ => contributes m && !pBool m.VendorProperties.Vendor_available

/-- One conditional guarded insertion. -/
def updReg (b : Bool) (n : String) (l : List String) : List String :=
  if b then insertSorted n l else l

/-- The effect of one non-faulting visit, as four independent conditional
insertions of the module's canonical name. -/
def vndkMutatorTotal (m : Module) (s : VndkRegistries) : VndkRegistries where
  vndkCoreLibraries := updReg (effCore m) (canonicalName m) s.vndkCoreLibraries
  vndkSpLibraries := updReg (effSp m) (canonicalName m) s.vndkSpLibraries
  llndkLibraries := updReg (isLlndk m) (canonicalName m) s.llndkLibraries
  vndkPrivateLibraries := updReg (effPriv m) (canonicalName m) s.vndkPrivateLibraries

/-- The total fold corresponding to a fault-free traversal pass. -/
def runVisitsTotal (l : List Module) (s : VndkRegistries) : VndkRegistries :=
  l.foldl (fun s m => vndkMutatorTotal m s) s

/-- Sample module: a VNDK-core shared library named `liba`, vendor-available. -/
def sampleCore : Module :=
  ⟨"liba", some (.library true), ⟨some true⟩, ⟨true⟩, some ⟨⟨⟨some true, some false⟩⟩⟩⟩

/-- Sample module: a VNDK-SP shared library named `libb`, vendor-available. -/
def sampleSp : Module :=
  ⟨"libb", some (.library true), ⟨some true⟩, ⟨true⟩, some ⟨⟨⟨some true, some true⟩⟩⟩⟩

/-! ### Lemmas about guarded sorted insertion -/

theorem insertSorted_of_mem {n : String} {l : List String} (h : n ∈ l) :
    insertSorted n l = l := by
  simp [insertSorted, inList, h]

theorem mem_insertSorted {a n : String} {l : List String} :
    a ∈ insertSorted n l ↔ a = n ∨ a ∈ l := by
  by_cases h : n ∈ l
  · rw [insertSorted_of_mem h]
    constructor
    · exact Or.inr
    · rintro (rfl | ha)
      · exact h
      · exact ha
  · rw [insertSorted, if_neg (by simp [inList, h])]
    rw [(List.perm_insertionSort _ _).mem_iff]
    simp [or_comm]

theorem insertSorted_idem (n : String) (l : List String) :
    insertSorted n (insertSorted n l) = insertSorted n l :=
  insertSorted_of_mem (mem_insertSorted.mpr (Or.inl rfl))

theorem insertSorted_of_not_mem {n : String} {l : List String} (h : n ∉ l) :
    insertSorted n l = List.insertionSort (· ≤ ·) (l ++ [n]) := by
  rw [insertSorted, if_neg (by simp [inList, h])]

theorem insertSorted_comm (a b : String) (l : List String) :
    insertSorted a (insertSorted b l) = insertSorted b (insertSorted a l) := by
  rcases eq_or_ne a b with rfl | hab
  · rfl
  by_cases ha : a ∈ l <;> by_cases hb : b ∈ l
  · rw [insertSorted_of_mem hb, insertSorted_of_mem ha, insertSorted_of_mem hb]
  · rw [insertSorted_of_mem ha,
      insertSorted_of_mem (mem_insertSorted.mpr (Or.inr ha))]
  · rw [insertSorted_of_mem hb,
      insertSorted_of_mem (mem_insertSorted.mpr (Or.inr hb))]
  · have hnA : a ∉ insertSorted b l := by
      rw [mem_insertSorted]
      rintro (rfl | h)
      · exact hab rfl
      · exact ha h
    have hnB : b ∉ insertSorted a l := by
      rw [mem_insertSorted]
      rintro (h | h)
      · exact hab h.symm
      · exact hb h
    rw [insertSorted_of_not_mem hnA, insertSorted_of_not_mem hnB,
      insertSorted_of_not_mem ha, insertSorted_of_not_mem hb]
    apply List.eq_of_perm_of_sorted ?_ (List.sorted_insertionSort _ _)
      (List.sorted_insertionSort _ _)
    refine ((List.perm_insertionSort _ _).trans ?_).trans
      (List.perm_insertionSort _ _).symm
    refine List.Perm.trans ((List.perm_insertionSort _ _).append_right [a]) ?_
    refine List.Perm.trans ?_ ((List.perm_insertionSort _ _).append_right [b]).symm
    rw [List.append_assoc, List.append_assoc]
    exact List.Perm.append_left l (List.Perm.swap a b [])

theorem updReg_idem (b : Bool) (n : String) (l : List String) :
    updReg b n (updReg b n l) = updReg b n l := by
  cases b <;> simp [updReg, insertSorted_idem]

theorem updReg_comm (b₁ b₂ : Bool) (n₁ n₂ : String) (l : List String) :
    updReg b₁ n₁ (updReg b₂ n₂ l) = updReg b₂ n₂ (updReg b₁ n₁ l) := by
  cases b₁ <;> cases b₂ <;> simp [updReg, insertSorted_comm]

theorem mem_updReg {a n : String} {b : Bool} {l : List String} :
    a ∈ updReg b n l ↔ (b = true ∧ a = n) ∨ a ∈ l := by
  cases b <;> simp [updReg, mem_insertSorted]

/-! ### The mutator as a conditional-insertion effect -/

theorem vndkMutator_eq (m : Module) (s : VndkRegistries) :
    vndkMutator m s =
      if visitFaults m then none else some (vndkMutatorTotal m s) := by
  obtain ⟨nm, lk, va, pr, dep⟩ := m
  obtain ⟨c, sp, ll, pv⟩ := s
  rcases lk with _ | k
  · rfl
  rcases k with sh | sh | sva | _
  · cases sh
    · rfl
    · rcases dep with _ | d
      · rfl
      · cases h1 : d.isVndk <;> cases h2 : d.isVndkSp <;> cases h3 : pBool va.Vendor_available <;>
          simp [vndkMutator, visitFaults, vndkMutatorTotal, effCore, effSp, effPriv,
            isLlndk, contributes, spClass, canonicalName, LinkerKind.isAnySharedLibrary,
            updReg, h1, h2, h3]
  · cases sh
    · rfl
    · rcases dep with _ | d
      · rfl
      · cases h1 : d.isVndk <;> cases h2 : d.isVndkSp <;> cases h3 : pBool va.Vendor_available <;>
          simp [vndkMutator, visitFaults, vndkMutatorTotal, effCore, effSp, effPriv,
            isLlndk, contributes, spClass, canonicalName, LinkerKind.isAnySharedLibrary,
            updReg, h1, h2, h3]
  · cases sva <;> rfl
  · rfl

theorem vndkMutatorTotal_comm (m₁ m₂ : Module) (s : VndkRegistries) :
    vndkMutatorTotal m₂ (vndkMutatorTotal m₁ s) = vndkMutatorTotal m₁ (vndkMutatorTotal m₂ s) := by
  simp [vndkMutatorTotal, updReg_comm]

theorem vndkMutatorTotal_idem (m : Module) (s : VndkRegistries) :
    vndkMutatorTotal m (vndkMutatorTotal m s) = vndkMutatorTotal m s := by
  simp [vndkMutatorTotal, updReg_idem]

theorem runVisits_eq_total {l : List Module} (h : ∀ m ∈ l, visitFaults m = false) :
    ∀ s, runVisits l s = some (runVisitsTotal l s) := by
  induction l with
  | nil => intro s; rfl
  | cons m rest ih =>
    intro s
    have hm := h m (List.mem_cons_self m rest)
    simp only [runVisits, vndkMutator_eq, hm, Bool.false_eq_true, if_false]
    rw [ih (fun m' hm' => h m' (List.mem_cons_of_mem _ hm'))]
    rfl

theorem runVisits_eq_none {l : List Module} {m : Module} (hm : m ∈ l)
    (hf : visitFaults m = true) : ∀ s, runVisits l s = none := by
  induction l with
  | nil => cases hm
  | cons m' rest ih =>
    intro s
    rcases List.mem_cons.mp hm with rfl | hm'
    · simp [runVisits, vndkMutator_eq, hf]
    · cases hfm' : visitFaults m'
      · simp only [runVisits, vndkMutator_eq, hfm', Bool.false_eq_true, if_false]
        exact ih hm' _
      · simp [runVisits, vndkMutator_eq, hfm']

theorem runVisits_some_no_faults {l : List Module} {s s' : VndkRegistries}
    (h : runVisits l s = some s') : ∀ m ∈ l, visitFaults m = false := by
  intro m hm
  by_contra hc
  rw [runVisits_eq_none hm (by revert hc; cases visitFaults m <;> simp) s] at h
  cases h

theorem mem_foldl_updReg (p : Module → Bool) (g : Module → String) :
    ∀ (l : List Module) (c : List String) (a : String),
      (a ∈ l.foldl (fun c m => updReg (p m) (g m) c) c) ↔
        a ∈ c ∨ ∃ m ∈ l, p m = true ∧ g m = a := by
  intro l
  induction l with
  | nil => simp
  | cons m rest ih =>
    intro c a
    rw [List.foldl_cons, ih, mem_updReg]
    simp only [List.mem_cons]
    constructor
    · rintro ((⟨hp, rfl⟩ | hc) | ⟨m', hm', hp', hg'⟩)
      · exact Or.inr ⟨m, Or.inl rfl, hp, rfl⟩
      · exact Or.inl hc
      · exact Or.inr ⟨m', Or.inr hm', hp', hg'⟩
    · rintro (hc | ⟨m', (rfl | hm'), hp', hg'⟩)
      · exact Or.inl (Or.inr hc)
      · exact Or.inl (Or.inl ⟨hp', hg'.symm⟩)
      · exact Or.inr ⟨m', hm', hp', hg'⟩

theorem runVisitsTotal_core (l : List Module) :
    ∀ s : VndkRegistries, (runVisitsTotal l s).vndkCoreLibraries =
      l.foldl (fun c m => updReg (effCore m) (canonicalName m) c) s.vndkCoreLibraries := by
  induction l with
  | nil => intro s; rfl
  | cons m rest ih =>
    intro s
    have h : runVisitsTotal (m :: rest) s = runVisitsTotal rest (vndkMutatorTotal m s) := rfl
    rw [h, ih]
    rfl

theorem runVisitsTotal_sp (l : List Module) :
    ∀ s : VndkRegistries, (runVisitsTotal l s).vndkSpLibraries =
      l.foldl (fun c m => updReg (effSp m) (canonicalName m) c) s.vndkSpLibraries := by
  induction l with
  | nil => intro s; rfl
  | cons m rest ih =>
    intro s
    have h : runVisitsTotal (m :: rest) s = runVisitsTotal rest (vndkMutatorTotal m s) := rfl
    rw [h, ih]
    rfl


/-! ### Facts about the classification predicates -/

theorem pBool_eq_true_iff {p : Option Bool} : pBool p = true ↔ p = some true := by
  rcases p with _ | b
  · simp [pBool]
  · cases b <;> simp [pBool]

theorem isVndk_false_of_not_enabled {v : Vndkdep}
    (h : v.Properties.Vndk.Enabled = none ∨ v.Properties.Vndk.Enabled = some false) :
    v.isVndk = false := by
  rcases h with h | h <;> simp [Vndkdep.isVndk, h, pBool]

/-! ### Claims -/

/-- C1, counterexample: in the code `isVndkSp()` reads
`Support_system_process` alone, so a view with `Support_system_process =
true` but `Vndk.Enabled` unset is VNDK-SP without being VNDK, refuting
`isVndkSp() ⟹ isVndk()` and `isVndkSp() = vndkEnabled && vndkSp`. -/
theorem C1_counterexample :
    (⟨⟨⟨none, some true⟩⟩⟩ : Vndkdep).isVndkSp = true ∧
      (⟨⟨⟨none, some true⟩⟩⟩ : Vndkdep).isVndk = false := by
  constructor <;> rfl

/-- C1, amended: `isVndkSp()` is `Bool(Support_system_process)` alone; the
implication `isVndkSp() ⟹ isVndk()` holds only for views satisfying the
declaration constraint documented in the property block
(`Support_system_process` set to true only together with
`Vndk.Enabled = true`). -/
theorem C1_isVndkSp_implies_isVndk_under_declared_constraint (v : Vndkdep)
    (hdecl : v.Properties.Vndk.Support_system_process = some true →
      v.Properties.Vndk.Enabled = some true) :
    v.isVndkSp = true → v.isVndk = true := by
  intro hsp
  have : v.Properties.Vndk.Support_system_process = some true :=
    pBool_eq_true_iff.mp hsp
  simp [Vndkdep.isVndk, hdecl this, pBool]

/-- C1, witness: the amended implication applied to a well-declared
VNDK-SP view. -/
theorem C1_witness :
    (⟨⟨⟨some true, some true⟩⟩⟩ : Vndkdep).isVndk = true :=
  C1_isVndkSp_implies_isVndk_under_declared_constraint _ (fun _ => rfl) rfl

/-- C7, counterexample: `typeName()` of a non-VNDK view is
`"native:vendor"`, not one of the three strings `"vendor"`,
`"vendor:vndk"`, `"vendor:vndksp"` the claim lists. -/
theorem C7_counterexample :
    ¬((⟨⟨⟨none, none⟩⟩⟩ : Vndkdep).typeName = "vendor" ∨
      (⟨⟨⟨none, none⟩⟩⟩ : Vndkdep).typeName = "vendor:vndk" ∨
      (⟨⟨⟨none, none⟩⟩⟩ : Vndkdep).typeName = "vendor:vndksp") := by
  decide

/-- C7, amended: `typeName()` returns exactly one of `"native:vendor"`,
`"native:vendor:vndk"`, `"native:vendor:vndksp"`, and the stage-4
diagnostic for a VNDK-SP module depending on a VNDK-core shared library
with a vendor variant cites the tiers `"native:vendor:vndksp"` and
`"native:vendor:vndk"`. -/
theorem C7_typeName_values_and_sp_diag :
    (∀ v : Vndkdep,
      v.typeName = "native:vendor" ∨ v.typeName = "native:vendor:vndk" ∨
        v.typeName = "native:vendor:vndksp") ∧
    (∀ (A : Vndkdep) (B : Module) (bd : Vndkdep),
      A.isVndk = true → A.isVndkSp = true →
      B.linker = some (.library true) → B.Properties.UseVndk = true →
      B.vndkdep = some bd → bd.isVndk = true → bd.isVndkSp = false →
      A.vndkCheckLinkType B =
        [.linkTypeViolation "native:vendor:vndksp" B.name "native:vendor:vndk"]) := by
  constructor
  · intro v
    rw [Vndkdep.typeName]
    cases v.isVndk <;> cases v.isVndkSp <;> simp
  · intro A B bd hA1 hA2 hl hu hd hb1 hb2
    have htA : A.typeName = "native:vendor:vndksp" := by
      simp [Vndkdep.typeName, hA1, hA2]
    have htB : bd.typeName = "native:vendor:vndk" := by
      simp [Vndkdep.typeName, hb1, hb2]
    simp [Vndkdep.vndkCheckLinkType, hl, hu, hd, hA1, hA2, hb1, hb2, htA, htB]

/-- C7, witness: the amended statement applied to the default view and to a
concrete VNDK-SP → VNDK-core shared edge. -/
theorem C7_witness :
    ((⟨⟨⟨none, none⟩⟩⟩ : Vndkdep).typeName = "native:vendor" ∨
      (⟨⟨⟨none, none⟩⟩⟩ : Vndkdep).typeName = "native:vendor:vndk" ∨
      (⟨⟨⟨none, none⟩⟩⟩ : Vndkdep).typeName = "native:vendor:vndksp") ∧
    (⟨⟨⟨some true, some true⟩⟩⟩ : Vndkdep).vndkCheckLinkType sampleCore =
      [.linkTypeViolation "native:vendor:vndksp" "liba" "native:vendor:vndk"] :=
  ⟨C7_typeName_values_and_sp_diag.1 ⟨⟨⟨none, none⟩⟩⟩,
    C7_typeName_values_and_sp_diag.2 ⟨⟨⟨some true, some true⟩⟩⟩ sampleCore
      ⟨⟨⟨some true, some false⟩⟩⟩ rfl rfl rfl rfl rfl rfl rfl⟩

/-- C6: the tier lattice is enforced asymmetrically.  A VNDK-core `from`
may depend on a VNDK-SP shared library with a vendor variant (no
diagnostic), while a VNDK-SP `from` depending on a VNDK-core shared
library with a vendor variant draws a tier-violation diagnostic. -/
theorem C6_tier_lattice_asymmetric :
    (∀ (A : Vndkdep) (B : Module) (bd : Vndkdep),
      A.isVndk = true → A.isVndkSp = false →
      B.linker = some (.library true) → B.Properties.UseVndk = true →
      B.vndkdep = some bd → bd.isVndk = true → bd.isVndkSp = true →
      A.vndkCheckLinkType B = []) ∧
    (∀ (A : Vndkdep) (B : Module) (bd : Vndkdep),
      A.isVndk = true → A.isVndkSp = true →
      B.linker = some (.library true) → B.Properties.UseVndk = true →
      B.vndkdep = some bd → bd.isVndk = true → bd.isVndkSp = false →
      A.vndkCheckLinkType B =
        [.linkTypeViolation A.typeName B.name bd.typeName]) := by
  constructor
  · intro A B bd hA1 hA2 hl hu hd hb1 hb2
    simp [Vndkdep.vndkCheckLinkType, hl, hu, hd, hA1, hA2, hb1, hb2]
  · intro A B bd hA1 hA2 hl hu hd hb1 hb2
    simp [Vndkdep.vndkCheckLinkType, hl, hu, hd, hA1, hA2, hb1, hb2]

/-- C6, witness: both directions at concrete views: core → SP silent,
SP → core flagged. -/
theorem C6_witness :
    (⟨⟨⟨some true, some false⟩⟩⟩ : Vndkdep).vndkCheckLinkType sampleSp = [] ∧
    (⟨⟨⟨some true, some true⟩⟩⟩ : Vndkdep).vndkCheckLinkType sampleCore =
      [.linkTypeViolation "native:vendor:vndksp" "liba" "native:vendor:vndk"] :=
  ⟨C6_tier_lattice_asymmetric.1 ⟨⟨⟨some true, some false⟩⟩⟩ sampleSp
      ⟨⟨⟨some true, some true⟩⟩⟩ rfl rfl rfl rfl rfl rfl rfl,
    C6_tier_lattice_asymmetric.2 ⟨⟨⟨some true, some true⟩⟩⟩ sampleCore
      ⟨⟨⟨some true, some false⟩⟩⟩ rfl rfl rfl rfl rfl rfl rfl⟩

/-- C9: the vendor-only guard does not early-return, so a non-VNDK `from`
depending on a plain shared library with `Vendor_available` explicitly
false and no vendor variant receives both the stage-1 diagnostic and the
stage-3 no-vendor-available-variant diagnostic, in that order. -/
theorem C9_stage1_and_stage3_both_fire (v : Vndkdep) (B : Module)
    (h1 : v.isVndk = false)
    (hl : B.linker = some (.library true))
    (hva : B.VendorProperties.Vendor_available = some false)
    (hu : B.Properties.UseVndk = false) :
    v.vndkCheckLinkType B =
      [.vendorAvailableViolation B.name,
        .notVendorAvailableLib v.typeName B.name] := by
  simp [Vndkdep.vndkCheckLinkType, hl, hva, hu, h1, pBool,
    LinkerKind.implsLibraryInterface]

/-- C9, witness: the double diagnostic at a concrete edge. -/
theorem C9_witness :
    (⟨⟨⟨none, none⟩⟩⟩ : Vndkdep).vndkCheckLinkType
        ⟨"libv", some (.library true), ⟨some false⟩, ⟨false⟩, none⟩ =
      [.vendorAvailableViolation "libv",
        .notVendorAvailableLib "native:vendor" "libv"] := by
  have h := C9_stage1_and_stage3_both_fire ⟨⟨⟨none, none⟩⟩⟩
    ⟨"libv", some (.library true), ⟨some false⟩, ⟨false⟩, none⟩ rfl rfl rfl rfl
  exact h

/-- C10: a `from` whose `Support_system_process` is true but whose
`Vndk.Enabled` is unset or false is still subjected to the stage-4 VNDK-SP
restriction, drawing a tier-violation diagnostic against a VNDK-core
shared-library dependency with a vendor variant — and that diagnostic
labels `from` with the plain-vendor tier `"native:vendor"`. -/
theorem C10_sp_restriction_without_enabled (v : Vndkdep) (B : Module) (bd : Vndkdep)
    (he : v.Properties.Vndk.Enabled = none ∨ v.Properties.Vndk.Enabled = some false)
    (hs : v.Properties.Vndk.Support_system_process = some true)
    (hl : B.linker = some (.library true)) (hu : B.Properties.UseVndk = true)
    (hd : B.vndkdep = some bd) (hb1 : bd.isVndk = true) (hb2 : bd.isVndkSp = false) :
    Diagnostic.linkTypeViolation "native:vendor" B.name "native:vendor:vndk"
      ∈ v.vndkCheckLinkType B := by
  have h1 : v.isVndk = false := isVndk_false_of_not_enabled he
  have h2 : v.isVndkSp = true := by simp [Vndkdep.isVndkSp, hs, pBool]
  have htv : v.typeName = "native:vendor" := by simp [Vndkdep.typeName, h1]
  have htb : bd.typeName = "native:vendor:vndk" := by
    simp [Vndkdep.typeName, hb1, hb2]
  simp [Vndkdep.vndkCheckLinkType, hl, hu, hd, h1, h2, hb2, htv, htb]

/-- C10, witness: the diagnostic at a concrete misdeclared-SP edge. -/
theorem C10_witness :
    Diagnostic.linkTypeViolation "native:vendor" "liba" "native:vendor:vndk"
      ∈ (⟨⟨⟨none, some true⟩⟩⟩ : Vndkdep).vndkCheckLinkType sampleCore :=
  C10_sp_restriction_without_enabled ⟨⟨⟨none, some true⟩⟩⟩ sampleCore
    ⟨⟨⟨some true, some false⟩⟩⟩ (Or.inl rfl) rfl rfl rfl rfl rfl rfl

theorem filter_isVA_eq_nil {l : List Diagnostic}
    (h : ∀ s, Diagnostic.vendorAvailableViolation s ∉ l) :
    l.filter (fun d => d.isVendorAvailableViolation) = [] := by
  induction l with
  | nil => rfl
  | cons d rest ih =>
    cases d with
    | vendorAvailableViolation s => exact absurd (List.mem_cons_self _ _) (h s)
    | notVendorAvailableLib a b =>
      simp only [List.filter_cons, Diagnostic.isVendorAvailableViolation,
        Bool.false_eq_true, if_false]
      exact ih fun s hs => h s (List.mem_cons_of_mem _ hs)
    | linkTypeViolation a b c =>
      simp only [List.filter_cons, Diagnostic.isVendorAvailableViolation,
        Bool.false_eq_true, if_false]
      exact ih fun s hs => h s (List.mem_cons_of_mem _ hs)

/-- C5: for a non-VNDK `from` and a dependency exposing a library
interface (shared or static, plain or prebuilt), the stage-1
unavailable-to-vendor diagnostic appears exactly when `Vendor_available`
is explicitly false: none when it is unset (or true), and exactly one,
naming the dependency, when it is explicitly false. -/
theorem C5_vendor_only_guard_iff_explicit_false (v : Vndkdep) (toM : Module)
    (lk : LinkerKind) (h1 : v.isVndk = false) (hl : toM.linker = some lk)
    (hlib : lk.implsLibraryInterface = true) :
    (v.vndkCheckLinkType toM).filter (fun d => d.isVendorAvailableViolation) =
      (if toM.VendorProperties.Vendor_available = some false
        then [Diagnostic.vendorAvailableViolation toM.name] else []) := by
  rcases lk with sh | sh | sva | _
  · cases sh
    · rcases hva : toM.VendorProperties.Vendor_available with _ | b
      · simp [Vndkdep.vndkCheckLinkType, hl, h1, hva, pBool,
          LinkerKind.implsLibraryInterface, Diagnostic.isVendorAvailableViolation]
      · cases b <;>
          simp [Vndkdep.vndkCheckLinkType, hl, h1, hva, pBool,
            LinkerKind.implsLibraryInterface, Diagnostic.isVendorAvailableViolation]
    · simp only [Vndkdep.vndkCheckLinkType, hl, List.filter_append]
      nth_rewrite 2 [filter_isVA_eq_nil ?_]
      · rw [List.append_nil]
        rcases hva : toM.VendorProperties.Vendor_available with _ | b
        · simp [h1, hva, pBool, LinkerKind.implsLibraryInterface,
            Diagnostic.isVendorAvailableViolation]
        · cases b <;>
            simp [h1, hva, pBool, LinkerKind.implsLibraryInterface,
              Diagnostic.isVendorAvailableViolation]
      · intro s hs
        split at hs
        · simp at hs
        · split at hs
          · cases hs
          · split at hs
            · simp at hs
            · cases hs
  · rcases hva : toM.VendorProperties.Vendor_available with _ | b
    · simp [Vndkdep.vndkCheckLinkType, hl, h1, hva, pBool,
        LinkerKind.implsLibraryInterface, Diagnostic.isVendorAvailableViolation]
    · cases b <;>
        simp [Vndkdep.vndkCheckLinkType, hl, h1, hva, pBool,
          LinkerKind.implsLibraryInterface, Diagnostic.isVendorAvailableViolation]
  · simp [LinkerKind.implsLibraryInterface] at hlib
  · simp [LinkerKind.implsLibraryInterface] at hlib

/-- C5, witness: unset `Vendor_available` yields no stage-1 diagnostic;
explicit false yields exactly one, naming the dependency. -/
theorem C5_witness :
    (((⟨⟨⟨none, none⟩⟩⟩ : Vndkdep).vndkCheckLinkType
        ⟨"libu", some (.library true), ⟨none⟩, ⟨true⟩, none⟩).filter
        (fun d => d.isVendorAvailableViolation) = []) ∧
    (((⟨⟨⟨none, none⟩⟩⟩ : Vndkdep).vndkCheckLinkType
        ⟨"libw", some (.prebuiltLibrary false), ⟨some false⟩, ⟨true⟩, none⟩).filter
        (fun d => d.isVendorAvailableViolation) =
      [Diagnostic.vendorAvailableViolation "libw"]) := by
  constructor
  · have h := C5_vendor_only_guard_iff_explicit_false ⟨⟨⟨none, none⟩⟩⟩
      ⟨"libu", some (.library true), ⟨none⟩, ⟨true⟩, none⟩ (.library true) rfl rfl rfl
    simpa using h
  · have h := C5_vendor_only_guard_iff_explicit_false ⟨⟨⟨none, none⟩⟩⟩
      ⟨"libw", some (.prebuiltLibrary false), ⟨some false⟩, ⟨true⟩, none⟩
      (.prebuiltLibrary false) rfl rfl rfl
    simpa using h

/-- C2, counterexample: the stage-2 type assertion accepts only a plain
`libraryDecorator`, so a prebuilt shared dependency with no vendor variant
draws no diagnostic at all — in particular not the
no-vendor-available-variant diagnostic the claim requires. -/
theorem C2_counterexample :
    (⟨⟨⟨none, none⟩⟩⟩ : Vndkdep).vndkCheckLinkType
      ⟨"libp", some (.prebuiltLibrary true), ⟨none⟩, ⟨false⟩, some ⟨⟨⟨none, none⟩⟩⟩⟩ = [] := by
  rfl

/-- C2, amended: a dependency whose linker is a prebuilt library (shared
or static) is *not* subject to the stage-3/stage-4 checks: every
diagnostic `checkEdge` can report for it is a stage-1
vendor-availability diagnostic, so no no-vendor-available-variant or
tier diagnostic is ever reported for a prebuilt shared library. -/
theorem C2_prebuilt_limited_to_stage1 (v : Vndkdep) (toM : Module) (sh : Bool)
    (hl : toM.linker = some (.prebuiltLibrary sh)) :
    ∀ d ∈ v.vndkCheckLinkType toM, d.isVendorAvailableViolation = true := by
  intro d hd
  simp only [Vndkdep.vndkCheckLinkType, hl] at hd
  split at hd
  · split at hd
    · rw [List.mem_singleton] at hd
      subst hd
      rfl
    · cases hd
  · cases hd

/-- C2, witness: the one diagnostic reported on a prebuilt shared library
marked `vendor_available: false` is of the stage-1 kind. -/
theorem C2_witness :
    (Diagnostic.vendorAvailableViolation "libq").isVendorAvailableViolation = true :=
  C2_prebuilt_limited_to_stage1 ⟨⟨⟨none, none⟩⟩⟩
    ⟨"libq", some (.prebuiltLibrary true), ⟨some false⟩, ⟨false⟩, none⟩ true rfl
    (Diagnostic.vendorAvailableViolation "libq") (by decide)

/-- C4, counterexample: visiting a plain shared library whose
classification view is absent dereferences the nil `vndkdep` pointer at
`m.vndkdep.isVndk()` and faults, refuting the claim that the visit never
fails for such a module. -/
theorem C4_counterexample :
    vndkMutator ⟨"libx", some (.library true), ⟨none⟩, ⟨false⟩, none⟩
      emptyRegistries = none := by
  rfl

/-- C4, amended: the visit is total — a no-op on unmatched kinds — for
every module except a shared library (plain or prebuilt) whose
classification view is absent; only that combination faults. -/
theorem C4_visit_total_unless_shared_without_view (m : Module)
    (s : VndkRegistries) (h : visitFaults m = false) :
    (vndkMutator m s).isSome = true := by
  rw [vndkMutator_eq, h]
  rfl

/-- C4, witness: a module of unmatched kind (non-library linker) with no
classification view is visited without fault. -/
theorem C4_witness :
    (vndkMutator ⟨"bin", some .other, ⟨none⟩, ⟨false⟩, none⟩
      emptyRegistries).isSome = true :=
  C4_visit_total_unless_shared_without_view _ _ rfl

/-- C3, counterexample: two distinct modules whose canonical names
coincide after stripping the `prebuilt_` prefix — an SP-classified
`foo` and a core-classified `prebuilt_foo` — leave the name `foo` in
both `vndkCore` and `vndkSp`, refuting the unconditional disjointness. -/
theorem C3_counterexample :
    runVisits
        [⟨"foo", some (.library true), ⟨some true⟩, ⟨true⟩,
            some ⟨⟨⟨some true, some true⟩⟩⟩⟩,
          ⟨"prebuilt_foo", some (.prebuiltLibrary true), ⟨some true⟩, ⟨true⟩,
            some ⟨⟨⟨some true, some false⟩⟩⟩⟩]
        emptyRegistries =
      some ⟨["foo"], ["foo"], [], []⟩ ∧
    "foo" ∈ (VndkRegistries.mk ["foo"] ["foo"] [] []).vndkCoreLibraries ∧
    "foo" ∈ (VndkRegistries.mk ["foo"] ["foo"] [] []).vndkSpLibraries := by
  refine ⟨rfl, ?_, ?_⟩ <;> decide

/-- C3, amended: after a completed pass from empty registries, no name is
in both `vndkCore` and `vndkSp` provided the visited modules are
SP-consistent: any two contributing modules (shared, VNDK) with the same
canonical name carry the same SP classification.  (Distinct modules whose
canonical names collide after prefix stripping but disagree on SP-ness
defeat the disjointness, as the counterexample shows.) -/
theorem C3_core_sp_disjoint_of_sp_consistent (l : List Module)
    (s' : VndkRegistries)
    (hagree : ∀ m₁ ∈ l, ∀ m₂ ∈ l, contributes m₁ = true → contributes m₂ = true →
      canonicalName m₁ = canonicalName m₂ → spClass m₁ = spClass m₂)
    (hrun : runVisits l emptyRegistries = some s') :
    ∀ n, ¬(n ∈ s'.vndkCoreLibraries ∧ n ∈ s'.vndkSpLibraries) := by
  have hnf := runVisits_some_no_faults hrun
  rw [runVisits_eq_total hnf] at hrun
  injection hrun with hrun
  subst hrun
  rintro n ⟨hc, hs⟩
  rw [runVisitsTotal_core, mem_foldl_updReg] at hc
  rw [runVisitsTotal_sp, mem_foldl_updReg] at hs
  rcases hc with hc | ⟨m₁, hm₁, he₁, hn₁⟩
  · cases hc
  rcases hs with hs | ⟨m₂, hm₂, he₂, hn₂⟩
  · cases hs
  have hc₁ : contributes m₁ = true ∧ spClass m₁ = false := by
    revert he₁
    simp [effCore]
  have hc₂ : contributes m₂ = true ∧ spClass m₂ = true := by
    revert he₂
    simp [effSp]
  have hcn : canonicalName m₁ = canonicalName m₂ := hn₁.trans hn₂.symm
  have := hagree m₁ hm₁ m₂ hm₂ hc₁.1 hc₂.1 hcn
  rw [hc₁.2, hc₂.2] at this
  cases this

/-- C3, witness: the amended disjointness on a concrete SP-consistent
two-module pass. -/
theorem C3_witness :
    ¬("liba" ∈ (VndkRegistries.mk ["liba"] ["libb"] [] []).vndkCoreLibraries ∧
      "liba" ∈ (VndkRegistries.mk ["liba"] ["libb"] [] []).vndkSpLibraries) :=
  C3_core_sp_disjoint_of_sp_consistent [sampleCore, sampleSp]
    ⟨["liba"], ["libb"], [], []⟩ (by decide) rfl "liba"

/-- C8: registry contents depend only on the set of visited modules.
Re-visiting a module is a no-op (all four inventories unchanged after the
second visit), and visiting a fixed collection of modules in any
permutation yields the same final registries. -/
theorem C8_idempotent_and_order_independent :
    (∀ (m : Module) (s s' : VndkRegistries),
      vndkMutator m s = some s' → vndkMutator m s' = some s') ∧
    (∀ l₁ l₂ : List Module, l₁.Perm l₂ →
      runVisits l₁ emptyRegistries = runVisits l₂ emptyRegistries) := by
  constructor
  · intro m s s' h
    rw [vndkMutator_eq] at h ⊢
    cases hf : visitFaults m
    · rw [hf] at h
      simp only [Bool.false_eq_true, if_false] at h
      injection h with h
      subst h
      simp only [Bool.false_eq_true, if_false, Option.some.injEq]
      exact vndkMutatorTotal_idem m s
    · rw [hf] at h
      simp at h
  · intro l₁ l₂ p
    by_cases h : ∃ m ∈ l₁, visitFaults m = true
    · obtain ⟨m, hm, hf⟩ := h
      rw [runVisits_eq_none hm hf, runVisits_eq_none (p.mem_iff.mp hm) hf]
    · push_neg at h
      have h₁ : ∀ m ∈ l₁, visitFaults m = false := by
        intro m hm
        have := h m hm
        revert this
        cases visitFaults m <;> simp
      have h₂ : ∀ m ∈ l₂, visitFaults m = false := fun m hm =>
        h₁ m (p.mem_iff.mpr hm)
      rw [runVisits_eq_total h₁, runVisits_eq_total h₂]
      haveI : RightCommutative (fun s (m : Module) => vndkMutatorTotal m s) :=
        ⟨fun s m₁ m₂ => vndkMutatorTotal_comm m₁ m₂ s⟩
      have := p.foldl_eq (f := fun s (m : Module) => vndkMutatorTotal m s)
        emptyRegistries
      simp only [runVisitsTotal, this]

/-- C8, witness: a re-visit of a concrete core library is a no-op, and a
concrete two-module pass gives the same registries in either order. -/
theorem C8_witness :
    vndkMutator sampleCore ⟨["liba"], [], [], []⟩ =
      some ⟨["liba"], [], [], []⟩ ∧
    runVisits [sampleCore, sampleSp] emptyRegistries =
      runVisits [sampleSp, sampleCore] emptyRegistries :=
  ⟨C8_idempotent_and_order_independent.1 sampleCore emptyRegistries
      ⟨["liba"], [], [], []⟩ rfl,
    C8_idempotent_and_order_independent.2 _ _ (List.Perm.swap sampleSp sampleCore [])⟩

end cc
